import Mathlib

/-!
Verification model of `src/keyvault_client.py` (Azure Key Vault CLI client).

Python strings are modelled as lists of characters (`PyStr`).  The external
collaborators (the Azure SDK client, the `requests` session, `urlparse`) are
modelled by their observable interfaces: a provider call is an
`Except AzureErrorKind _` value, the session is a record of the TLS-relevant
state the code sets on it, and the hostname obtained from
`urlparse(self.vault_url).hostname` is an `Option PyStr` parameter
(`none` models Python's `None` hostname).
-/

/-- Python `str`, modelled as a list of characters. -/
abbrev PyStr := List Char

/-- Python `s.startswith(pre)`. -/
def pyStartswith (s pre : PyStr) : Bool := pre.isPrefixOf s

/-- Python `s.endswith(suf)`. -/
def pyEndswith (s suf : PyStr) : Bool := suf.isSuffixOf s

/-- Python `s.lower()`. -/
def pyLower (s : PyStr) : PyStr := s.map Char.toLower

/-- Python truthiness of a string: `bool(s)` is `False` exactly for `""`. -/
def pyTruthy (s : PyStr) : Bool := !(s.isEmpty)

/-- Python truthiness of an optional string: `None` and `""` are falsy. -/
def pyTruthyOpt : Option PyStr → Bool
  | none => false
  | some s => pyTruthy s

/-- Trust decision of the TLS-trust classification policy. -/
inductive Trust where
  | Strict
  | Relaxed
deriving DecidableEq, Repr

/-- Python `ssl.TLSVersion` values relevant to this program. -/
inductive TLSVersion where
  | TLSv1
  | TLSv1_1
  | TLSv1_2
  | TLSv1_3
deriving DecidableEq, Repr

/-- Python `ssl` certificate verification modes. -/
inductive VerifyMode where
  | CERT_NONE
  | CERT_OPTIONAL
  | CERT_REQUIRED
deriving DecidableEq, Repr

/-- The fields of an `ssl.SSLContext` that `_create_transport` sets
(lines 86-89 of `keyvault_client.py`). -/
structure SSLContext where
  check_hostname : Bool
  verify_mode : VerifyMode
  minimum_version : TLSVersion
deriving DecidableEq, Repr

/-- The TLS-relevant state of the `requests.Session` built by
`_create_transport`: the `verify` flag, whether urllib3 insecure-request
warnings were disabled, and the SSL context carried by the adapter mounted
for `https://` (a default `requests.adapters.HTTPAdapter()` carries no
custom context, so this field is the context actually wired into the
session, if any). -/
structure Session where
  verify : Bool
  warningsDisabled : Bool
  mountedContext : Option SSLContext
deriving DecidableEq, Repr

/-- Python exceptions that the client code can raise during construction. -/
inductive PyError where
  | attributeError
  | valueError (msg : PyStr)
deriving DecidableEq, Repr

/-- Causes of `azure.core.exceptions.AzureError` raised by the SDK client;
the code treats them uniformly, so only the cause kind is modelled. -/
inductive AzureErrorKind where
  | notFound
  | authFailure
  | networkFailure
deriving DecidableEq, Repr

/-- The `is_internal` test of `_create_transport` (lines 67-73): hostname
starts with `10.`, `192.168.` or `172.`, is `localhost` or `127.0.0.1`,
or does not end with `.azure.net`. -/
def is_internal (hostname : PyStr) : Bool :=
  pyStartswith hostname ("10.".toList) ||
  pyStartswith hostname ("192.168.".toList) ||
  pyStartswith hostname ("172.".toList) ||
  (hostname == ("localhost".toList) || hostname == ("127.0.0.1".toList)) ||
  !(pyEndswith hostname (".azure.net".toList))

/-- The `ssl.SSLContext` built in the strict branch of `_create_transport`
(lines 86-89): `check_hostname = True`, `verify_mode = CERT_REQUIRED`,
`minimum_version = TLSv1_2`. -/
def strict_ssl_context : SSLContext :=
  { check_hostname := true
    verify_mode := VerifyMode.CERT_REQUIRED
    minimum_version := TLSVersion.TLSv1_2 }

/-- `_create_transport` (lines 61-97).  The argument is
`urlparse(self.vault_url).hostname`; when it is `None`, the attribute
access `parsed_url.hostname.startswith('10.')` raises `AttributeError`.
Otherwise a session is configured: relaxed (no verification, warnings
suppressed) when the override flag is set or the hostname is classified
internal; strict otherwise.  In the strict branch the code builds
`strict_ssl_context` but mounts a default `HTTPAdapter()` without it, so
`mountedContext` is `none` in both branches. -/
def _create_transport (hostname : Option PyStr) (disable_ssl_verify : Bool) :
    Except PyError Session :=
  match hostname with
  | none => Except.error PyError.attributeError
  | some h =>
    if disable_ssl_verify || is_internal h then
      Except.ok { verify := false, warningsDisabled := true, mountedContext := none }
    else
      let _ssl_context := strict_ssl_context
      Except.ok { verify := true, warningsDisabled := false, mountedContext := none }

/-- The trust classification implicit in `_create_transport` line 75:
the session is relaxed (`verify = False`) exactly when
`self.disable_ssl_verify or is_internal` holds. -/
def classify (hostname : PyStr) (disable_ssl_verify : Bool) : Trust :=
  if disable_ssl_verify || is_internal hostname then Trust.Relaxed else Trust.Strict

lemma is_internal_iff (hostname : PyStr) :
    is_internal hostname = true ↔
      (("10.".toList) <+: hostname ∨ ("192.168.".toList) <+: hostname ∨
       ("172.".toList) <+: hostname ∨ hostname = ("localhost".toList) ∨
       hostname = ("127.0.0.1".toList) ∨ ¬ ((".azure.net".toList) <:+ hostname)) := by
  simp [is_internal, pyStartswith, pyEndswith, or_assoc, Bool.eq_false_iff, ne_eq]

/-- Claim C1: with no override set, the trust classifier returns Relaxed
exactly when the hostname begins with `10.`, `192.168.` or `172.`, or is
`localhost` or `127.0.0.1`, or does not end with the provider suffix
`.azure.net`; in particular `myvault.vault.azure.net` is classified Strict. -/
theorem trust_classifier_relaxed_iff (hostname : PyStr) :
    (classify hostname false = Trust.Relaxed ↔
      (("10.".toList) <+: hostname ∨ ("192.168.".toList) <+: hostname ∨
       ("172.".toList) <+: hostname ∨ hostname = ("localhost".toList) ∨
       hostname = ("127.0.0.1".toList) ∨ ¬ ((".azure.net".toList) <:+ hostname))) ∧
    classify ("myvault.vault.azure.net".toList) false = Trust.Strict := by
  refine ⟨?_, by decide⟩
  rw [← is_internal_iff]
  unfold classify
  simp only [Bool.false_or]
  by_cases hi : is_internal hostname <;> simp [hi]

/-- Claim C3: when the relaxed-TLS override is set, the transport is
configured relaxed (certificate verification disabled) for every hostname,
and the classifier returns Relaxed, regardless of what the hostname-based
classification would decide. -/
theorem override_forces_relaxed (hostname : PyStr) :
    _create_transport (some hostname) true =
      Except.ok { verify := false, warningsDisabled := true, mountedContext := none } ∧
    classify hostname true = Trust.Relaxed := by
  constructor
  · unfold _create_transport
    simp
  · unfold classify
    simp

/-- Claim C5 (code evaluated at the failing input): for the public-suffix
hostname `myvault.vault.azure.net` with no override, the strict branch is
taken and sets `verify = True`, and the SSL context it builds does request
`minimum_version = TLSv1_2`, `check_hostname = True` and `CERT_REQUIRED` —
but the session's mounted adapter carries no SSL context at all
(`mountedContext = none`): the built context is discarded, so the minimum
TLS version is not enforced on the session actually used for requests. -/
theorem strict_ssl_context_not_mounted :
    _create_transport (some ("myvault.vault.azure.net".toList)) false =
      Except.ok { verify := true, warningsDisabled := false, mountedContext := none } ∧
    strict_ssl_context.minimum_version = TLSVersion.TLSv1_2 ∧
    strict_ssl_context.check_hostname = true ∧
    strict_ssl_context.verify_mode = VerifyMode.CERT_REQUIRED := by
  refine ⟨rfl, rfl, rfl, rfl⟩

/-- Claim C10: transport creation only produces a trust decision when the
URL parse yields a hostname; when the parsed hostname is `None` (as for a
URL without a scheme), it raises `AttributeError` — not a session and not a
configuration-error (`ValueError`) diagnostic — for either override value. -/
theorem transport_requires_hostname (disable_ssl_verify : Bool) :
    _create_transport none disable_ssl_verify = Except.error PyError.attributeError ∧
    (∀ h : PyStr, ∃ s : Session,
      _create_transport (some h) disable_ssl_verify = Except.ok s) := by
  refine ⟨rfl, fun h => ?_⟩
  unfold _create_transport
  by_cases hc : disable_ssl_verify || is_internal h <;> simp [hc]

/-- `get_secret` (lines 134-149): returns the secret value, or `None` when
the SDK raises an `AzureError` (the cause is only logged). -/
def get_secret (resp : Except AzureErrorKind PyStr) : Option PyStr :=
  match resp with
  | Except.ok v => some v
  | Except.error _ => none

/-- `set_secret` (lines 151-168): returns `True` when the SDK call returns,
`False` when it raises an `AzureError` (the cause is only logged). -/
def set_secret (resp : Except AzureErrorKind Unit) : Bool :=
  match resp with
  | Except.ok _ => true
  | Except.error _ => false

/-- `list_secrets` (lines 170-184): collects the property names into a list
by repeated append; returns `[]` when the SDK raises an `AzureError`. -/
def list_secrets (resp : Except AzureErrorKind (List PyStr)) : List PyStr :=
  match resp with
  | Except.ok props => props.foldl (fun secrets name => secrets ++ [name]) []
  | Except.error _ => []

/-- Python `dict` assignment `results[name] = v` on a dict modelled as an
insertion-ordered association list: replace the existing entry for the key,
or append a new one. -/
def dictInsert (m : List (PyStr × Option PyStr)) (k : PyStr) (v : Option PyStr) :
    List (PyStr × Option PyStr) :=
  if (m.lookup k).isSome then
    m.map (fun p => if p.1 = k then (k, v) else p)
  else
    m ++ [(k, v)]

/-- `get_multiple_secrets` (lines 186-199): builds a dict by applying
`self.get_secret` to each requested name in sequence. -/
def get_multiple_secrets (get : PyStr → Option PyStr) (secret_names : List PyStr) :
    List (PyStr × Option PyStr) :=
  secret_names.foldl (fun results name => dictInsert results name (get name)) []

/-- Claim C2: every provider failure is collapsed: `get_secret` returns
`None` on any `AzureError`, `set_secret` returns `False` on any
`AzureError` and `True` exactly when the provider confirms the write, and
no failure cause is distinguishable in the returned values. -/
theorem facade_error_collapse (e₁ e₂ : AzureErrorKind) :
    get_secret (Except.error e₁) = none ∧
    set_secret (Except.error e₁) = false ∧
    (∀ r : Except AzureErrorKind Unit, set_secret r = true ↔ r = Except.ok ()) ∧
    get_secret (Except.error e₁) = get_secret (Except.error e₂) ∧
    set_secret (Except.error e₁) = set_secret (Except.error e₂) := by
  refine ⟨rfl, rfl, fun r => ?_, rfl, rfl⟩
  cases r with
  | ok u => cases u; simp [set_secret]
  | error e => simp [set_secret]

/-- Claim C6: `list_secrets` returns the empty list on every provider
failure, and that outcome is identical to the one for a reachable store
with zero secrets. -/
theorem list_secrets_failure_empty_ambiguity (e : AzureErrorKind) :
    list_secrets (Except.error e) = [] ∧
    list_secrets (Except.ok []) = [] ∧
    list_secrets (Except.error e) = list_secrets (Except.ok []) := by
  exact ⟨rfl, rfl, rfl⟩

lemma lookup_cons_eq (a1 : PyStr) (a2 : Option PyStr)
    (t : List (PyStr × Option PyStr)) (n : PyStr) :
    ((a1, a2) :: t).lookup n = if n = a1 then some a2 else t.lookup n := by
  rw [List.lookup_cons]
  by_cases h : n = a1
  · simp [h]
  · have hb : (n == a1) = false := by simp [h]
    simp [hb, h]

lemma lookup_map_update (m : List (PyStr × Option PyStr)) (k n : PyStr)
    (v : Option PyStr) :
    (m.map (fun p => if p.1 = k then (k, v) else p)).lookup n =
      if n = k then (if (m.lookup k).isSome then some v else none)
      else m.lookup n := by
  induction m with
  | nil => by_cases h : n = k <;> simp [h]
  | cons a t ih =>
    obtain ⟨a1, a2⟩ := a
    simp only [List.map_cons]
    by_cases hak : a1 = k
    · subst hak
      by_cases hnk : n = a1 <;> simp [lookup_cons_eq, ih, hnk]
    · have hka : ¬ k = a1 := fun h => hak h.symm
      by_cases hna : n = a1
      · subst hna
        simp [lookup_cons_eq, hak, hka]
      · have h1 : List.lookup k ((a1, a2) :: t) = List.lookup k t := by
          rw [lookup_cons_eq, if_neg hka]
        simp only [if_neg hak, lookup_cons_eq, if_neg hna, if_neg hka, ih, h1]

lemma lookup_dictInsert (m : List (PyStr × Option PyStr)) (k n : PyStr)
    (v : Option PyStr) :
    (dictInsert m k v).lookup n = if n = k then some v else m.lookup n := by
  unfold dictInsert
  by_cases hs : (m.lookup k).isSome
  · simp [hs, lookup_map_update]
  · rw [if_neg hs, List.lookup_append]
    by_cases hnk : n = k
    · subst hnk
      have hnone : m.lookup n = none := by
        cases hmn : m.lookup n
        · rfl
        · exact absurd (by simp [hmn]) hs
      simp [hnone, lookup_cons_eq]
    · cases hmn : m.lookup n <;> simp [hmn, lookup_cons_eq, hnk]

lemma gms_foldl_lookup (get : PyStr → Option PyStr) (secret_names : List PyStr)
    (acc : List (PyStr × Option PyStr)) (n : PyStr) :
    (secret_names.foldl (fun results name => dictInsert results name (get name)) acc).lookup n =
      if secret_names.contains n then some (get n) else acc.lookup n := by
  induction secret_names generalizing acc with
  | nil => simp
  | cons k rest ih =>
    simp only [List.foldl_cons, ih, lookup_dictInsert]
    by_cases hnk : n = k
    · subst hnk
      simp [List.contains_cons]
    · simp [List.contains_cons, hnk]

/-- Claim C7: `get_multiple_secrets` is the pointwise, sequential
application of `get_secret`: looking up any name in the result yields
`some (get n)` exactly when `n` was requested and nothing otherwise, so
each name's outcome depends only on its own lookup. -/
theorem get_multiple_secrets_pointwise (get : PyStr → Option PyStr)
    (secret_names : List PyStr) (n : PyStr) :
    (get_multiple_secrets get secret_names).lookup n =
      (if secret_names.contains n then some (get n) else none) := by
  unfold get_multiple_secrets
  rw [gms_foldl_lookup]
  simp [List.lookup]

/-- The apostrophe character, `chr(39)`. -/
def apos : Char := Char.ofNat 39

/-- Output line of the CLI `get` command (lines 224-230): the value is
printed only when it is truthy (`if value:`), so `None` and the empty
string both produce the not-found/error message. -/
def cli_get_output (secret_name : PyStr) (value : Option PyStr) : PyStr :=
  if pyTruthyOpt value then
    secret_name ++ (": ".toList) ++ value.getD []
  else
    ("Secret ".toList) ++ [apos] ++ secret_name ++ [apos] ++
      (" not found or error occurred".toList)

/-- Output line of the CLI `get-multiple` command for one name
(lines 251-255): `name: value` when the value is truthy, otherwise
`name: [NOT FOUND]`. -/
def cli_get_multiple_output (name : PyStr) (value : Option PyStr) : PyStr :=
  if pyTruthyOpt value then
    name ++ (": ".toList) ++ value.getD []
  else
    name ++ (": [NOT FOUND]".toList)

/-- Claim C9: at the CLI boundary an empty-string secret value is reported
exactly like an absent one, for both `get` and `get-multiple`, even though
the facade itself returns a non-`None` value for it. -/
theorem cli_empty_secret_reported_not_found (name : PyStr) :
    cli_get_output name (some []) = cli_get_output name none ∧
    cli_get_multiple_output name (some []) = cli_get_multiple_output name none ∧
    get_secret (Except.ok []) = some [] ∧ some ([] : PyStr) ≠ none := by
  refine ⟨rfl, rfl, rfl, by simp⟩

/-- The `ValueError` message raised when no vault URL is configured
(line 38). -/
def missingUrlMsg : PyStr :=
  "AZURE_KEYVAULT_URL not found in environment variables or .env file".toList

/-- Python `a or b` for the optional strings of line 34: `a` unless `a` is
`None` or empty (falsy). -/
def pyOrOpt (a b : Option PyStr) : Option PyStr :=
  match a with
  | some s => if pyTruthy s then some s else b
  | none => b

/-- Endpoint resolution and normalization of `__init__` (lines 34-42):
`vault_url or os.getenv('AZURE_KEYVAULT_URL')`, a fatal `ValueError` when
the result is falsy, then a trailing `/` is appended when missing. -/
def initVaultUrl (vault_url env_url : Option PyStr) : Except PyError PyStr :=
  match pyOrOpt vault_url env_url with
  | none => Except.error (PyError.valueError missingUrlMsg)
  | some s =>
    if pyTruthy s then
      Except.ok (if pyEndswith s ("/".toList) then s else s ++ ("/".toList))
    else
      Except.error (PyError.valueError missingUrlMsg)

/-- Claim C8: a successfully constructed client has a non-empty vault
endpoint ending with `/`; an endpoint given without the trailing slash gets
one appended, and with no endpoint at all construction fails with the
fatal `ValueError`. -/
theorem vault_url_normalization (vault_url env_url : Option PyStr) (s : PyStr) :
    (initVaultUrl vault_url env_url = Except.ok s →
      s ≠ [] ∧ (("/".toList).isSuffixOf s) = true) ∧
    initVaultUrl (some ("https://v.example.com".toList)) none =
      Except.ok ("https://v.example.com/".toList) ∧
    initVaultUrl none none = Except.error (PyError.valueError missingUrlMsg) := by
  refine ⟨?_, rfl, rfl⟩
  intro h
  unfold initVaultUrl at h
  cases hor : pyOrOpt vault_url env_url with
  | none =>
    simp only [hor] at h
    exact Except.noConfusion h
  | some u =>
    simp only [hor] at h
    by_cases ht : pyTruthy u
    · rw [if_pos ht] at h
      simp only [Except.ok.injEq] at h
      subst h
      by_cases he : pyEndswith u ("/".toList)
      · rw [if_pos he]
        refine ⟨?_, he⟩
        intro hu
        rw [hu] at ht
        exact absurd ht (by decide)
      · rw [if_neg he]
        refine ⟨by simp, ?_⟩
        rw [List.isSuffixOf_iff_suffix]
        exact List.suffix_append u ("/".toList)
    · rw [if_neg ht] at h
      exact absurd h (by simp)

/-- Witness for `vault_url_normalization`: the implication instantiated at
the concrete endpoint `https://v.example.com`. -/
theorem vault_url_normalization_witness :
    ("https://v.example.com/".toList : PyStr) ≠ [] ∧
    (("/".toList).isSuffixOf ("https://v.example.com/".toList)) = true :=
  (vault_url_normalization (some ("https://v.example.com".toList)) none
    ("https://v.example.com/".toList)).1 rfl

/-- The facade operations a constructed `AzureKeyVaultClient` offers to
`main`, each already result-shaped as the methods return them: the outcome
of `test_connection`, the `get_secret`/`set_secret` results per name, and
the `list_secrets` result. -/
structure Client where
  test_connection : Bool
  get_secret : PyStr → Option PyStr
  set_secret : PyStr → PyStr → Bool
  list_secrets : List PyStr

/-- Exit code of `main` (lines 201-263).  The usage check precedes client
construction; a construction failure is caught by the outer `except` and
exits 1, so the `Except.error` case is 1 for every argv.  The dispatch:
`test`, `get`, `list` and `get-multiple` ignore the operation outcome and
fall through to a normal exit 0; only `set` exits 1 on a `False` result;
an unknown command or missing arguments exits 1. -/
def main_exit (argv : List PyStr) : Except PyError Client → Nat
  | Except.error _ => 1
  | Except.ok client =>
    if argv.length < 2 then 1
    else if pyLower (argv.getD 1 []) = ("test".toList) then
      let _ := client.test_connection
      0
    else if pyLower (argv.getD 1 []) = ("get".toList) ∧ 3 ≤ argv.length then
      let _ := cli_get_output (argv.getD 2 []) (client.get_secret (argv.getD 2 []))
      0
    else if pyLower (argv.getD 1 []) = ("set".toList) ∧ 4 ≤ argv.length then
      if client.set_secret (argv.getD 2 []) (argv.getD 3 []) then 0 else 1
    else if pyLower (argv.getD 1 []) = ("list".toList) then
      let _ := client.list_secrets
      0
    else if pyLower (argv.getD 1 []) = ("get-multiple".toList) ∧ 3 ≤ argv.length then
      let _ := get_multiple_secrets client.get_secret (argv.drop 2)
      0
    else 1

/-- A client whose every operation reports failure: `test_connection` is
false, every `get_secret` is `None`, every `set_secret` is `False`, and
`list_secrets` is empty. -/
def stubClient : Client :=
  { test_connection := false
    get_secret := fun _ => none
    set_secret := fun _ _ => false
    list_secrets := [] }

/-- Counterexample to claim C4: the invocation `get missing` against a
client whose `get_secret` finds no value — an operation failure — exits
with code 0, not 1. -/
theorem cli_exit_code_cex :
    stubClient.get_secret ("missing".toList) = none ∧
    main_exit [("keyvault_client.py".toList), ("get".toList), ("missing".toList)]
      (Except.ok stubClient) = 0 ∧
    main_exit [("keyvault_client.py".toList), ("get".toList), ("missing".toList)]
      (Except.ok stubClient) ≠ 1 := by
  refine ⟨rfl, by decide, by decide⟩

/-- Claim C4 as amended: the process exits 1 on a usage error (fewer than
two argv entries, unknown command, or missing command arguments) and on a
construction failure; the `set` command exits 1 exactly when `set_secret`
reports failure; but `test`, `get`, `list` and `get-multiple` exit 0
regardless of the operation outcome. -/
theorem cli_exit_code_cases (argv : List PyStr) (client : Client) (e : PyError) :
    (argv.length < 2 → main_exit argv (Except.ok client) = 1) ∧
    main_exit argv (Except.error e) = 1 ∧
    (2 ≤ argv.length → pyLower (argv.getD 1 []) = ("test".toList) →
      main_exit argv (Except.ok client) = 0) ∧
    (3 ≤ argv.length → pyLower (argv.getD 1 []) = ("get".toList) →
      main_exit argv (Except.ok client) = 0) ∧
    (4 ≤ argv.length → pyLower (argv.getD 1 []) = ("set".toList) →
      main_exit argv (Except.ok client) =
        (if client.set_secret (argv.getD 2 []) (argv.getD 3 []) then 0 else 1)) ∧
    (2 ≤ argv.length → pyLower (argv.getD 1 []) = ("list".toList) →
      main_exit argv (Except.ok client) = 0) ∧
    (3 ≤ argv.length → pyLower (argv.getD 1 []) = ("get-multiple".toList) →
      main_exit argv (Except.ok client) = 0) ∧
    (2 ≤ argv.length →
      pyLower (argv.getD 1 []) ∉
        [("test".toList), ("get".toList), ("set".toList), ("list".toList),
         ("get-multiple".toList)] →
      main_exit argv (Except.ok client) = 1) ∧
    (2 ≤ argv.length → argv.length < 3 →
      (pyLower (argv.getD 1 []) = ("get".toList) ∨
       pyLower (argv.getD 1 []) = ("get-multiple".toList)) →
      main_exit argv (Except.ok client) = 1) ∧
    (2 ≤ argv.length → argv.length < 4 → pyLower (argv.getD 1 []) = ("set".toList) →
      main_exit argv (Except.ok client) = 1) := by
  refine ⟨?_, rfl, ?_, ?_, ?_, ?_, ?_, ?_, ?_, ?_⟩
  · intro hl
    simp only [main_exit]
    rw [if_pos hl]
  · intro hl hc
    simp only [main_exit]
    rw [if_neg (by omega), hc, if_pos rfl]
  · intro hl hc
    simp only [main_exit]
    rw [if_neg (by omega), hc, if_neg (by decide), if_pos ⟨rfl, hl⟩]
  · intro hl hc
    simp only [main_exit]
    rw [if_neg (by omega), hc, if_neg (by decide),
        if_neg (fun h => absurd h.1 (by decide)), if_pos ⟨rfl, hl⟩]
  · intro hl hc
    simp only [main_exit]
    rw [if_neg (by omega), hc, if_neg (by decide),
        if_neg (fun h => absurd h.1 (by decide)),
        if_neg (fun h => absurd h.1 (by decide)), if_pos rfl]
  · intro hl hc
    simp only [main_exit]
    rw [if_neg (by omega), hc, if_neg (by decide),
        if_neg (fun h => absurd h.1 (by decide)),
        if_neg (fun h => absurd h.1 (by decide)),
        if_neg (by decide), if_pos ⟨rfl, hl⟩]
  · intro hl hmem
    have h1 : pyLower (argv.getD 1 []) ≠ ("test".toList) := by
      intro h
      exact hmem (by rw [h]; simp)
    have h2 : pyLower (argv.getD 1 []) ≠ ("get".toList) := by
      intro h
      exact hmem (by rw [h]; simp)
    have h3 : pyLower (argv.getD 1 []) ≠ ("set".toList) := by
      intro h
      exact hmem (by rw [h]; simp)
    have h4 : pyLower (argv.getD 1 []) ≠ ("list".toList) := by
      intro h
      exact hmem (by rw [h]; simp)
    have h5 : pyLower (argv.getD 1 []) ≠ ("get-multiple".toList) := by
      intro h
      exact hmem (by rw [h]; simp)
    simp only [main_exit]
    rw [if_neg (by omega), if_neg h1, if_neg (fun h => h2 h.1),
        if_neg (fun h => h3 h.1), if_neg h4, if_neg (fun h => h5 h.1)]
  · intro hl hl3 hor
    simp only [main_exit]
    rcases hor with hc | hc
    · rw [if_neg (by omega), hc, if_neg (by decide),
          if_neg (fun h => absurd h.2 (by omega)),
          if_neg (fun h => absurd h.1 (by decide)),
          if_neg (by decide),
          if_neg (fun h => absurd h.1 (by decide))]
    · rw [if_neg (by omega), hc, if_neg (by decide),
          if_neg (fun h => absurd h.1 (by decide)),
          if_neg (fun h => absurd h.1 (by decide)),
          if_neg (by decide),
          if_neg (fun h => absurd h.2 (by omega))]
  · intro hl hl4 hc
    simp only [main_exit]
    rw [if_neg (by omega), hc, if_neg (by decide),
        if_neg (fun h => absurd h.1 (by decide)),
        if_neg (fun h => absurd h.2 (by omega)),
        if_neg (by decide),
        if_neg (fun h => absurd h.1 (by decide))]

/-- Witness for `cli_exit_code_cases`: every case instantiated at a
concrete invocation against `stubClient`. -/
theorem cli_exit_code_cases_witness :
    main_exit [("keyvault_client.py".toList)] (Except.ok stubClient) = 1 ∧
    main_exit [("keyvault_client.py".toList)]
      (Except.error PyError.attributeError) = 1 ∧
    main_exit [("keyvault_client.py".toList), ("test".toList)]
      (Except.ok stubClient) = 0 ∧
    main_exit [("keyvault_client.py".toList), ("get".toList), ("k".toList)]
      (Except.ok stubClient) = 0 ∧
    main_exit [("keyvault_client.py".toList), ("set".toList), ("k".toList), ("v".toList)]
      (Except.ok stubClient) =
      (if stubClient.set_secret ("k".toList) ("v".toList) then 0 else 1) ∧
    main_exit [("keyvault_client.py".toList), ("list".toList)]
      (Except.ok stubClient) = 0 ∧
    main_exit [("keyvault_client.py".toList), ("get-multiple".toList), ("k".toList)]
      (Except.ok stubClient) = 0 ∧
    main_exit [("keyvault_client.py".toList), ("frobnicate".toList)]
      (Except.ok stubClient) = 1 ∧
    main_exit [("keyvault_client.py".toList), ("get".toList)]
      (Except.ok stubClient) = 1 ∧
    main_exit [("keyvault_client.py".toList), ("set".toList), ("k".toList)]
      (Except.ok stubClient) = 1 := by
  refine ⟨(cli_exit_code_cases [("keyvault_client.py".toList)] stubClient
            PyError.attributeError).1 (by decide),
          (cli_exit_code_cases [("keyvault_client.py".toList)] stubClient
            PyError.attributeError).2.1,
          (cli_exit_code_cases [("keyvault_client.py".toList), ("test".toList)]
            stubClient PyError.attributeError).2.2.1 (by decide) (by decide),
          (cli_exit_code_cases [("keyvault_client.py".toList), ("get".toList),
            ("k".toList)] stubClient PyError.attributeError).2.2.2.1
            (by decide) (by decide),
          (cli_exit_code_cases [("keyvault_client.py".toList), ("set".toList),
            ("k".toList), ("v".toList)] stubClient
            PyError.attributeError).2.2.2.2.1 (by decide) (by decide),
          (cli_exit_code_cases [("keyvault_client.py".toList), ("list".toList)]
            stubClient PyError.attributeError).2.2.2.2.2.1 (by decide) (by decide),
          (cli_exit_code_cases [("keyvault_client.py".toList),
            ("get-multiple".toList), ("k".toList)] stubClient
            PyError.attributeError).2.2.2.2.2.2.1 (by decide) (by decide),
          (cli_exit_code_cases [("keyvault_client.py".toList),
            ("frobnicate".toList)] stubClient
            PyError.attributeError).2.2.2.2.2.2.2.1 (by decide) (by decide),
          (cli_exit_code_cases [("keyvault_client.py".toList), ("get".toList)]
            stubClient PyError.attributeError).2.2.2.2.2.2.2.2.1
            (by decide) (by decide) (Or.inl (by decide)),
          (cli_exit_code_cases [("keyvault_client.py".toList), ("set".toList),
            ("k".toList)] stubClient PyError.attributeError).2.2.2.2.2.2.2.2.2
            (by decide) (by decide) (by decide)⟩
